import Mathlib

/-!
Verification development for the ing-switch migration core.

This file gives a shallow embedding, in Lean 4, of the pure transformation
layer of the ing-switch repository: the annotation knowledge base and the
compatibility classifier (pkg/analyzer), the Gateway API manifest synthesizer
(pkg/migrator/gatewayapi/httproute.go), the Traefik updated-Ingress generator
(pkg/migrator/traefik/migrator.go), and the validation phase derivation
(pkg/server/validate.go).

Conventions of the embedding:

* A Go `map[string]string` is modelled as an association list (`GoMap`).
  The list order is the iteration order the Go runtime would use for a
  `range` loop over that map; Go leaves this order unspecified (and in fact
  randomizes it), so two association lists that are permutations of each
  other with the same key set represent the same Go map.  Code whose output
  depends on that order is therefore code whose output is not a function of
  the map.
* Functions that build YAML by string formatting are embedded either
  structurally (the Gateway API HTTPRoute builders, where the claims are
  about the structure of the emitted route objects: filters, backendRefs,
  sectionName, timeouts) or literally at the string level (the Traefik
  updated-Ingress generator, where the claim is about byte-identical
  content).  The structural embedding keeps exactly the control flow and
  data of the source; YAML serialization of the structured value is the only
  part abstracted away.
* Go `v, ok := m[k]` is `mapFind`/`mapHas`; Go `m[k]` (zero value on a
  missing key) is `mapGet`.
-/

namespace IngSwitch

/-- Go `map[string]string` as an association list; see the file header for the
iteration-order convention. -/
abbrev GoMap := List (String × String)

/-- Go comma-ok map read: the `v` of `v, ok := m[k]`, as an `Option`. -/
def mapFind (m : GoMap) (k : String) : Option String :=
  (m.find? (fun kv => kv.1 == k)).map (fun kv => kv.2)

/-- Go plain map read `m[k]`: the zero value `""` when the key is absent. -/
def mapGet (m : GoMap) (k : String) : String :=
  (mapFind m k).getD ""

/-- Go comma-ok presence test: the `ok` of `v, ok := m[k]`. -/
def mapHas (m : GoMap) (k : String) : Bool :=
  (mapFind m k).isSome

/-- Go `delete(m, k)`. -/
def mapDelete (m : GoMap) (k : String) : GoMap :=
  m.filter (fun kv => kv.1 != k)

/-- Go `m[k] = v`; a fresh key takes some position in the iteration order, here
modelled as the end of the list. -/
def mapSet (m : GoMap) (k v : String) : GoMap :=
  if mapHas m k then m.map (fun kv => if kv.1 == k then (kv.1, v) else kv)
  else m ++ [(k, v)]

/-! ## Data model: pkg/scanner/types.go -/

/-- PathInfo from pkg/scanner/types.go. -/
structure PathInfo where
  host : String
  path : String
  pathType : String
  serviceName : String
  servicePort : Int
deriving DecidableEq, Repr, Inhabited

/-- ServiceRef from pkg/scanner/types.go. -/
structure ServiceRef where
  ns : String
  name : String
  port : Int
deriving DecidableEq, Repr, Inhabited

/-- IngressInfo from pkg/scanner/types.go.  `annotations` is the full map,
`nginxAnnotations` only the nginx.ingress.kubernetes.io/* keys with the prefix
stripped. -/
structure IngressInfo where
  ns : String
  name : String
  ingressClass : String
  hosts : List String
  paths : List PathInfo
  tlsEnabled : Bool
  tlsSecrets : List String
  annotations : GoMap
  nginxAnnotations : GoMap
  services : List ServiceRef
  complexity : String
deriving DecidableEq, Repr, Inhabited

/-- ControllerInfo from pkg/scanner/types.go. -/
structure ControllerInfo where
  detected : Bool
  ctype : String
  version : String
  ns : String
  podName : String
deriving DecidableEq, Repr, Inhabited

/-- ScanResult from pkg/scanner/types.go. -/
structure ScanResult where
  clusterName : String
  controller : ControllerInfo
  ingresses : List IngressInfo
  namespaces : List String
deriving DecidableEq, Repr, Inhabited

/-! ## Knowledge base and classifier: pkg/analyzer -/

/-- MappingStatus constants from pkg/analyzer (StatusSupported, StatusPartial,
StatusUnsupported). -/
inductive MappingStatus where
  | supported
  | partialStatus
  | unsupported
deriving DecidableEq, Repr, Inhabited

/-- AnnotationMapping from pkg/analyzer: one classification result. -/
structure AnnotationMapping where
  originalKey : String
  originalValue : String
  status : MappingStatus
  targetResource : String
  generatedYAML : String
  note : String
deriving DecidableEq, Repr, Inhabited

/-- One value of the per-target mapping tables (anonymous struct in the Go
source). -/
structure MappingEntry where
  status : MappingStatus
  targetResource : String
  note : String
deriving DecidableEq, Repr, Inhabited

/-- traefikMappings from pkg/analyzer: how each nginx annotation maps to
Traefik.  A Go map literal; unique keys, key-based lookup only. -/
def traefikMappings : List (String × MappingEntry) := [
  ("ssl-redirect", ⟨.supported, "Middleware (RedirectScheme)", "Generates RedirectScheme middleware"⟩),
  ("force-ssl-redirect", ⟨.supported, "Middleware (RedirectScheme)", "Permanent redirect to HTTPS"⟩),
  ("enable-cors", ⟨.supported, "Middleware (Headers)", "Generates CORS Headers middleware"⟩),
  ("cors-allow-origin", ⟨.supported, "Middleware (Headers)", "Part of Headers CORS middleware"⟩),
  ("cors-allow-methods", ⟨.supported, "Middleware (Headers)", "Part of Headers CORS middleware"⟩),
  ("cors-allow-headers", ⟨.supported, "Middleware (Headers)", "Part of Headers CORS middleware"⟩),
  ("cors-expose-headers", ⟨.supported, "Middleware (Headers)", "Part of Headers CORS middleware"⟩),
  ("cors-allow-credentials", ⟨.supported, "Middleware (Headers)", "Part of Headers CORS middleware"⟩),
  ("cors-max-age", ⟨.supported, "Middleware (Headers)", "Part of Headers CORS middleware"⟩),
  ("affinity", ⟨.supported, "Service sticky annotation", "Traefik sticky cookie on Service"⟩),
  ("session-cookie-name", ⟨.supported, "Service sticky annotation", "Cookie name for session affinity"⟩),
  ("session-cookie-path", ⟨.partialStatus, "Service sticky annotation", "Limited path support"⟩),
  ("session-cookie-samesite", ⟨.supported, "Service sticky annotation", "SameSite attribute"⟩),
  ("session-cookie-secure", ⟨.supported, "Service sticky annotation", "Secure flag"⟩),
  ("limit-rps", ⟨.supported, "Middleware (RateLimit)", "Generates RateLimit middleware"⟩),
  ("limit-rpm", ⟨.supported, "Middleware (RateLimit)", "Converted to average rate"⟩),
  ("limit-connections", ⟨.supported, "Middleware (InFlightReq)", "Max concurrent requests"⟩),
  ("limit-burst-multiplier", ⟨.supported, "Middleware (RateLimit)", "Burst size multiplier"⟩),
  ("limit-whitelist", ⟨.supported, "Middleware (RateLimit)", "Exempt IPs from rate limiting"⟩),
  ("auth-url", ⟨.supported, "Middleware (ForwardAuth)", "Generates ForwardAuth middleware"⟩),
  ("auth-method", ⟨.partialStatus, "Middleware (ForwardAuth)", "Only GET/POST supported"⟩),
  ("auth-response-headers", ⟨.supported, "Middleware (ForwardAuth)", "Headers passed after auth"⟩),
  ("auth-request-redirect", ⟨.partialStatus, "Middleware (ForwardAuth)", "Redirect URL for auth failure"⟩),
  ("auth-type", ⟨.partialStatus, "Middleware (BasicAuth)", "Basic auth only; digest not supported"⟩),
  ("auth-secret", ⟨.partialStatus, "Middleware (BasicAuth)", "Secret format differs from NGINX"⟩),
  ("auth-realm", ⟨.supported, "Middleware (BasicAuth)", "Auth realm"⟩),
  ("whitelist-source-range", ⟨.supported, "Middleware (IPAllowList)", "Generates IPAllowList middleware"⟩),
  ("denylist-source-range", ⟨.supported, "Middleware (IPDenyList)", "Generates IPDenyList middleware"⟩),
  ("custom-headers", ⟨.partialStatus, "Middleware (Headers)", "ConfigMap ref not supported; inline headers needed"⟩),
  ("rewrite-target", ⟨.supported, "Middleware (ReplacePath/AddPrefix)", "URL rewrite middleware"⟩),
  ("use-regex", ⟨.supported, "Router (native)", "Traefik supports regex routing natively"⟩),
  ("app-root", ⟨.supported, "Router + Middleware", "Redirect root path"⟩),
  ("permanent-redirect", ⟨.supported, "Middleware (RedirectRegex)", "Permanent redirect"⟩),
  ("temporal-redirect", ⟨.supported, "Middleware (RedirectRegex)", "Temporary redirect"⟩),
  ("canary", ⟨.supported, "Weighted Services", "Weighted backend traffic splitting"⟩),
  ("canary-weight", ⟨.supported, "Weighted Services", "Traffic weight percentage"⟩),
  ("canary-by-header", ⟨.partialStatus, "Router rules", "Header matching in router rules"⟩),
  ("canary-by-header-value", ⟨.partialStatus, "Router rules", "Header value matching"⟩),
  ("canary-by-cookie", ⟨.partialStatus, "Router rules", "Cookie-based routing via rules"⟩),
  ("proxy-read-timeout", ⟨.partialStatus, "ServersTransport CRD", "Requires ServersTransport resource"⟩),
  ("proxy-send-timeout", ⟨.partialStatus, "ServersTransport CRD", "Requires ServersTransport resource"⟩),
  ("proxy-connect-timeout", ⟨.partialStatus, "ServersTransport CRD", "Requires ServersTransport resource"⟩),
  ("proxy-buffering", ⟨.unsupported, "", "No direct Traefik equivalent"⟩),
  ("proxy-body-size", ⟨.partialStatus, "Middleware (Buffering)", "Traefik Buffering middleware with maxRequestBodyBytes"⟩),
  ("proxy-request-buffering", ⟨.partialStatus, "Native (off by default)", "Off is default behavior; enabling request buffering requires Buffering middleware"⟩),
  ("client-body-buffer-size", ⟨.unsupported, "", "No Traefik equivalent"⟩),
  ("configuration-snippet", ⟨.unsupported, "", "NGINX-specific; intentionally not supported"⟩),
  ("server-snippet", ⟨.unsupported, "", "NGINX-specific; intentionally not supported"⟩),
  ("ssl-passthrough", ⟨.partialStatus, "Traefik TCP router", "Requires TCP entrypoint config"⟩),
  ("backend-protocol", ⟨.partialStatus, "Service annotation", "HTTPS/GRPC backends need ServersTransport"⟩),
  ("websocket-services", ⟨.supported, "Native", "Traefik supports WebSocket natively"⟩),
  ("grpc-backend", ⟨.partialStatus, "ServersTransport + h2c", "gRPC requires h2c configuration"⟩),
  ("upstream-hash-by", ⟨.unsupported, "", "Hash-based LB not supported in Traefik Ingress"⟩),
  ("load-balance", ⟨.unsupported, "", "Traefik uses round-robin; custom LB not via Ingress"⟩),
  ("affinity-mode", ⟨.partialStatus, "Service (sticky cookie)", "Traefik always uses persistent affinity; balanced re-balancing is not available"⟩),
  ("canary-weight-total", ⟨.supported, "Weighted Services", "Traefik uses relative weights; total is implicit"⟩),
  ("proxy-http-version", ⟨.partialStatus, "ServersTransport CRD", "HTTP/2 via ServersTransport; HTTP/1.0 not supported"⟩),
  ("session-cookie-expires", ⟨.partialStatus, "Service (sticky cookie maxage)", "Convert seconds to service.sticky.cookie.maxage annotation on Service"⟩),
  ("session-cookie-max-age", ⟨.supported, "Service (sticky cookie maxage)", "Maps to service.sticky.cookie.maxage annotation on Service"⟩),
  ("session-cookie-conditional-samesite-none", ⟨.unsupported, "", "Traefik sets SameSite statically — no UA-conditional logic"⟩),
  ("session-cookie-change-on-failure", ⟨.unsupported, "", "No Traefik equivalent (traefik/traefik#1299)"⟩),
  ("service-upstream", ⟨.supported, "Service annotation (nativelb)", "Set traefik.ingress.kubernetes.io/service.nativelb: 'true' on Service"⟩),
  ("from-to-www-redirect", ⟨.partialStatus, "Middleware (RedirectRegex)", "Requires RedirectRegex middleware + separate Ingress entry for www"⟩),
  ("upstream-vhost", ⟨.partialStatus, "Middleware (Headers) + passhostheader", "Headers middleware sets Host header; disable passhostheader on Service"⟩),
  ("secure-verify-ca-secret", ⟨.partialStatus, "ServersTransport (rootCAs)", "ServersTransport CRD referencing the CA secret"⟩)]

/-- gatewayAPIMappings from pkg/analyzer: how each nginx annotation maps to
Gateway API.  A Go map literal; unique keys, key-based lookup only. -/
def gatewayAPIMappings : List (String × MappingEntry) := [
  ("ssl-redirect", ⟨.supported, "HTTPRoute (RequestRedirect filter)", "RequestRedirect filter with scheme=https"⟩),
  ("force-ssl-redirect", ⟨.supported, "HTTPRoute (RequestRedirect filter)", "301 redirect to HTTPS"⟩),
  ("rewrite-target", ⟨.supported, "HTTPRoute (URLRewrite filter)", "Path rewrite via URLRewrite filter"⟩),
  ("custom-headers", ⟨.supported, "HTTPRoute (ResponseHeaderModifier)", "Response header manipulation filter"⟩),
  ("canary", ⟨.supported, "HTTPRoute (weighted backendRefs)", "Traffic split via backendRefs weights"⟩),
  ("canary-weight", ⟨.supported, "HTTPRoute (weighted backendRefs)", "Weight value in backendRefs"⟩),
  ("enable-cors", ⟨.partialStatus, "HTTPRoute (ResponseHeaderModifier)", "Manual CORS headers; no native CORS filter in v1"⟩),
  ("cors-allow-origin", ⟨.partialStatus, "HTTPRoute (ResponseHeaderModifier)", "Set Access-Control-Allow-Origin header"⟩),
  ("cors-allow-methods", ⟨.partialStatus, "HTTPRoute (ResponseHeaderModifier)", "Set Access-Control-Allow-Methods header"⟩),
  ("cors-allow-headers", ⟨.partialStatus, "HTTPRoute (ResponseHeaderModifier)", "Set Access-Control-Allow-Headers header"⟩),
  ("cors-allow-credentials", ⟨.partialStatus, "HTTPRoute (ResponseHeaderModifier)", "Set Access-Control-Allow-Credentials header"⟩),
  ("auth-url", ⟨.partialStatus, "SecurityPolicy (ExtensionRef)", "Envoy Gateway SecurityPolicy with ext-auth"⟩),
  ("auth-response-headers", ⟨.partialStatus, "SecurityPolicy (ExtensionRef)", "Part of SecurityPolicy ext-auth config"⟩),
  ("limit-rps", ⟨.partialStatus, "BackendTrafficPolicy (RateLimit)", "Envoy Gateway BackendTrafficPolicy"⟩),
  ("limit-rpm", ⟨.partialStatus, "BackendTrafficPolicy (RateLimit)", "Converted to rate limit"⟩),
  ("limit-connections", ⟨.partialStatus, "BackendTrafficPolicy (CircuitBreaker)", "Circuit breaker policy"⟩),
  ("whitelist-source-range", ⟨.partialStatus, "HTTPRoute (source IP match)", "HTTPRouteMatch with client IP — limited support"⟩),
  ("denylist-source-range", ⟨.partialStatus, "SecurityPolicy (IPFilter)", "Envoy Gateway SecurityPolicy IP filter"⟩),
  ("affinity", ⟨.partialStatus, "BackendLBPolicy (SessionPersistence)", "Gateway API v1.1 SessionPersistence"⟩),
  ("session-cookie-name", ⟨.partialStatus, "BackendLBPolicy", "Cookie name in SessionPersistence"⟩),
  ("proxy-read-timeout", ⟨.partialStatus, "HTTPRoute (timeouts)", "HTTPRoute spec.rules[].timeouts.backendRequest"⟩),
  ("proxy-connect-timeout", ⟨.partialStatus, "HTTPRoute (timeouts)", "HTTPRoute spec.rules[].timeouts.request"⟩),
  ("canary-by-header", ⟨.supported, "HTTPRoute (header match)", "Match header in HTTPRouteMatch"⟩),
  ("canary-by-header-value", ⟨.supported, "HTTPRoute (header match)", "Exact header value match"⟩),
  ("use-regex", ⟨.supported, "HTTPRoute (PathMatch RegularExpression)", "Native regex path matching"⟩),
  ("permanent-redirect", ⟨.supported, "HTTPRoute (RequestRedirect)", "301 redirect filter"⟩),
  ("temporal-redirect", ⟨.supported, "HTTPRoute (RequestRedirect)", "302 redirect filter"⟩),
  ("backend-protocol", ⟨.partialStatus, "Gateway TLS config", "TLS backend via Gateway listener config"⟩),
  ("websocket-services", ⟨.supported, "Native", "Gateway API supports WebSocket natively"⟩),
  ("grpc-backend", ⟨.supported, "GRPCRoute", "Dedicated GRPCRoute resource"⟩),
  ("proxy-body-size", ⟨.partialStatus, "BackendTrafficPolicy (requestBuffer)", "Envoy Gateway BackendTrafficPolicy with requestBuffer.limit"⟩),
  ("proxy-request-buffering", ⟨.supported, "Native", "Envoy Gateway streams requests by default (off is the default)"⟩),
  ("configuration-snippet", ⟨.unsupported, "", "NGINX-specific; no equivalent"⟩),
  ("server-snippet", ⟨.unsupported, "", "NGINX-specific; no equivalent"⟩),
  ("auth-type", ⟨.unsupported, "", "No basic auth in core Gateway API"⟩),
  ("auth-secret", ⟨.unsupported, "", "No basic auth in core Gateway API"⟩),
  ("ssl-passthrough", ⟨.partialStatus, "TLSRoute", "TLS passthrough via TLSRoute"⟩),
  ("load-balance", ⟨.unsupported, "", "Not configurable via Gateway API"⟩),
  ("upstream-hash-by", ⟨.unsupported, "", "Not in core Gateway API"⟩),
  ("affinity-mode", ⟨.partialStatus, "BackendLBPolicy (SessionPersistence)", "Cookie persistence in BackendLBPolicy; balanced re-balancing unavailable in spec"⟩),
  ("canary-weight-total", ⟨.supported, "HTTPRoute (weighted backendRefs)", "Gateway API backendRefs weights are relative; total is implicit"⟩),
  ("proxy-http-version", ⟨.supported, "Native", "Envoy Gateway handles HTTP/2 and HTTP/1.1 natively"⟩),
  ("session-cookie-expires", ⟨.partialStatus, "BackendLBPolicy (absoluteTimeout)", "BackendLBPolicy cookieConfig.lifetimeType: Permanent + absoluteTimeout"⟩),
  ("session-cookie-max-age", ⟨.partialStatus, "BackendLBPolicy (absoluteTimeout)", "BackendLBPolicy cookieConfig.absoluteTimeout field"⟩),
  ("session-cookie-conditional-samesite-none", ⟨.unsupported, "", "No Gateway API or Envoy Gateway equivalent"⟩),
  ("session-cookie-change-on-failure", ⟨.unsupported, "", "No Gateway API equivalent"⟩),
  ("service-upstream", ⟨.supported, "Native", "Gateway API routes to pod IPs natively (no kube-proxy overhead)"⟩),
  ("from-to-www-redirect", ⟨.supported, "HTTPRoute (RequestRedirect)", "HTTPRoute RequestRedirect filter with hostname replacement"⟩),
  ("upstream-vhost", ⟨.supported, "HTTPRoute (RequestHeaderModifier)", "RequestHeaderModifier filter sets Host header"⟩),
  ("secure-verify-ca-secret", ⟨.partialStatus, "BackendTLSPolicy", "BackendTLSPolicy with caCertificateRefs for backend TLS verification"⟩),
  ("session-cookie-samesite", ⟨.unsupported, "", "SameSite is not configurable in BackendLBPolicy; no Gateway API equivalent"⟩),
  ("session-cookie-path", ⟨.unsupported, "", "Cookie path scoping is not in BackendLBPolicy spec"⟩),
  ("session-cookie-secure", ⟨.unsupported, "", "Secure flag is not configurable in BackendLBPolicy spec"⟩),
  ("proxy-send-timeout", ⟨.unsupported, "", "No Gateway API equivalent; only backendRequest timeout (from proxy-read-timeout) is supported"⟩),
  ("proxy-buffering", ⟨.unsupported, "", "No Gateway API or Envoy Gateway equivalent"⟩),
  ("cors-expose-headers", ⟨.partialStatus, "HTTPRoute (ResponseHeaderModifier)", "Set Access-Control-Expose-Headers via ResponseHeaderModifier"⟩),
  ("cors-max-age", ⟨.partialStatus, "HTTPRoute (ResponseHeaderModifier)", "Set Access-Control-Max-Age via ResponseHeaderModifier"⟩),
  ("limit-burst-multiplier", ⟨.partialStatus, "BackendTrafficPolicy (RateLimit)", "Burst is configurable in BackendTrafficPolicy but uses tokens, not a multiplier"⟩),
  ("limit-whitelist", ⟨.unsupported, "", "Per-IP rate limit exemption list is not in BackendTrafficPolicy spec"⟩),
  ("canary-by-cookie", ⟨.unsupported, "", "Cookie-based canary routing requires ExtensionRef; not in core Gateway API"⟩),
  ("app-root", ⟨.partialStatus, "HTTPRoute (URLRewrite)", "URLRewrite on root path can redirect / to the app root; limited to exact path"⟩)]

/-- Key-based lookup into one of the two mapping tables (a Go map index). -/
def lookupEntry (table : List (String × MappingEntry)) (key : String) :
    Option MappingEntry :=
  (table.find? (fun kv => kv.1 == key)).map (fun kv => kv.2)

/-- The shared body of mapAnnotationFor once a table has been selected: looked-up
entry, or the unknown-annotation sentinel. -/
def mapWithTable (table : List (String × MappingEntry)) (key value : String) :
    AnnotationMapping :=
  match lookupEntry table key with
  | some m =>
      { originalKey := key, originalValue := value, status := m.status,
        targetResource := m.targetResource, generatedYAML := "", note := m.note }
  | none =>
      { originalKey := key, originalValue := value, status := .unsupported,
        targetResource := "", generatedYAML := "",
        note := "Unknown annotation — manual review required" }

/-- The MapAnnotation function of pkg/analyzer: switch on the target, then table lookup.
The default branch of the Go switch returns an unsupported mapping with the
note "Unknown target". -/
def mapAnnotationFor (key value target : String) : AnnotationMapping :=
  if target = "traefik" then mapWithTable traefikMappings key value
  else if target = "gateway-api" then mapWithTable gatewayAPIMappings key value
  else
    { originalKey := key, originalValue := value, status := .unsupported,
      targetResource := "", generatedYAML := "", note := "Unknown target" }

/-- IngressReport from pkg/analyzer/report.go. -/
structure IngressReport where
  ns : String
  name : String
  mappings : List AnnotationMapping
  overallStatus : String
deriving DecidableEq, Repr, Inhabited

/-- Summary from pkg/analyzer/report.go. -/
structure Summary where
  total : Nat
  fullyCompatible : Nat
  needsWorkaround : Nat
  hasUnsupported : Nat
deriving DecidableEq, Repr, Inhabited

/-- AnalysisReport from pkg/analyzer/report.go. -/
structure AnalysisReport where
  target : String
  ingressReports : List IngressReport
  summary : Summary
deriving DecidableEq, Repr, Inhabited

/-- analyzeIngress from pkg/analyzer/report.go.  The Go loop ranges over the
annotation map, appending one mapping per annotation in iteration order while
accumulating the two flags; this is the same as a map plus two `any` scans. -/
def analyzeIngress (target : String) (ing : IngressInfo) : IngressReport :=
  let mappings := ing.nginxAnnotations.map (fun kv => mapAnnotationFor kv.1 kv.2 target)
  let hU := mappings.any (fun m => m.status == MappingStatus.unsupported)
  let hP := mappings.any (fun m => m.status == MappingStatus.partialStatus)
  { ns := ing.ns, name := ing.name, mappings := mappings,
    overallStatus :=
      if hU then "breaking" else if hP then "workaround" else "ready" }

/-- One step of the summary accumulation in Analyze: Total always increments,
then the switch on the overall status bumps the matching counter. -/
def bumpSummary (s : Summary) (status : String) : Summary :=
  let s := { s with total := s.total + 1 }
  if status = "ready" then { s with fullyCompatible := s.fullyCompatible + 1 }
  else if status = "workaround" then { s with needsWorkaround := s.needsWorkaround + 1 }
  else if status = "breaking" then { s with hasUnsupported := s.hasUnsupported + 1 }
  else s

/-- The body of the Analyze loop: append the per-ingress report and update
the summary. -/
def analyzeStep (target : String) (rep : AnalysisReport) (ing : IngressInfo) :
    AnalysisReport :=
  let ir := analyzeIngress target ing
  { rep with ingressReports := rep.ingressReports ++ [ir],
             summary := bumpSummary rep.summary ir.overallStatus }

/-- Analyze from pkg/analyzer/report.go: per-ingress reports appended in slice
order, with the running summary.  There is no error path and no target check:
the loop runs for every target string. -/
def Analyze (target : String) (scan : ScanResult) : AnalysisReport :=
  scan.ingresses.foldl (analyzeStep target)
    { target := target, ingressReports := [], summary := ⟨0, 0, 0, 0⟩ }

/-! ## Gateway API synthesizer: pkg/migrator/gatewayapi/httproute.go

The Go code builds YAML text; the claims are about the structure of the
emitted HTTPRoute objects, so each builder is embedded as the structured
value it serializes.  Every conditional, default, and list order below
mirrors the corresponding Go function line by line. -/

/-- A header match emitted by buildHeaderMatches: either an exact value match
or a Present match. -/
inductive HeaderMatch where
  | value (name headerValue : String)
  | present (name : String)
deriving DecidableEq, Repr, Inhabited

/-- A path match emitted by buildPathMatch: the `type:` and `value:` fields. -/
structure PathMatch where
  matchType : String
  value : String
deriving DecidableEq, Repr, Inhabited

/-- One entry of a rule's `matches:` list (the code always emits exactly
one, a path match plus an optional header match). -/
structure RouteMatch where
  path : PathMatch
  header : Option HeaderMatch
deriving DecidableEq, Repr, Inhabited

/-- A filter in a rule's `filters:` list.  `requestRedirect` is emitted only
by buildRedirectOnlyRules; buildBackendFilters emits the other three shapes
(URLRewrite with or without the regex-capture note, the CORS header block,
and the custom-headers placeholder). -/
inductive HTTPFilter where
  | requestRedirect (scheme : String) (statusCode : Nat)
  | urlRewriteReplaceFullPath (target : String) (regexCaptureNote : Bool)
  | corsResponseHeaders (origin methods headers credentials : String)
  | customHeadersPlaceholder
deriving DecidableEq, Repr, Inhabited

/-- Whether a filter is the RequestRedirect filter. -/
def HTTPFilter.isRequestRedirect : HTTPFilter → Bool
  | .requestRedirect _ _ => true
  | _ => false

/-- One entry of a rule's `backendRefs:` list, from buildBackendRefs.  When
the canary branch fires, `weight` is the stated weight and the generated YAML
carries the commented stable-backend placeholder (`stableNote`). -/
structure BackendRef where
  name : String
  port : Int
  weight : Option String
  stableNote : Bool
deriving DecidableEq, Repr, Inhabited

/-- The `timeouts:` block from buildTimeouts.  The generated YAML contains the
single key `backendRequest`; no other timeout field is ever printed. -/
structure Timeouts where
  backendRequest : String
deriving DecidableEq, Repr, Inhabited

/-- One `rules:` entry of an HTTPRoute. -/
structure HTTPRouteRule where
  ruleMatches : List RouteMatch
  filters : List HTTPFilter
  backendRefs : List BackendRef
  timeouts : Option Timeouts
deriving DecidableEq, Repr, Inhabited

/-- One HTTPRoute document as generated by generateSingleHTTPRoute or the
redirect half of generateSplitHTTPRoutes: metadata, the single parentRef
(gateway name/namespace plus optional sectionName), hostnames, rules. -/
structure HTTPRouteDoc where
  name : String
  ns : String
  parentGateway : String
  parentNamespace : String
  sectionName : Option String
  hostnames : List String
  rules : List HTTPRouteRule
deriving DecidableEq, Repr, Inhabited

/-- pathHasRegexChars: true when the path contains a character that is only
valid in the RegularExpression path type. -/
def pathHasRegexChars (path : String) : Bool :=
  ['(', ')', '|', '[', ']', '\x7b', '\x7d'].any (fun ch => path.data.contains ch)

/-- buildPathMatch: empty paths default to "/"; RegularExpression when the
use-regex annotation key is present (any value) or the path has regex
characters; otherwise Exact when PathType is exactly "Exact", else
PathPrefix. -/
def buildPathMatch (p : PathInfo) (annots : GoMap) : PathMatch :=
  let pathValue := if p.path = "" then "/" else p.path
  let useRegex := mapHas annots "use-regex"
  if useRegex || pathHasRegexChars pathValue then
    { matchType := "RegularExpression", value := pathValue }
  else
    let pathType := if p.pathType = "Exact" then "Exact" else "PathPrefix"
    { matchType := pathType, value := pathValue }

/-- buildHeaderMatches: the canary-by-header annotations become a header
match; with a value annotation an exact match, otherwise a Present match. -/
def buildHeaderMatches (annots : GoMap) : Option HeaderMatch :=
  let header := mapGet annots "canary-by-header"
  let headerValue := mapGet annots "canary-by-header-value"
  if header = "" then none
  else if headerValue != "" then some (.value header headerValue)
  else some (.present header)

/-- buildCORSFilter with the getAnnotation defaults of the source
(getAnnotation returns the value when the comma-ok read succeeds with a
non-empty value, else the default). -/
def buildCORSFilter (annots : GoMap) : HTTPFilter :=
  let getA := fun (key dflt : String) =>
    if mapHas annots key && mapGet annots key != "" then mapGet annots key else dflt
  .corsResponseHeaders
    (getA "cors-allow-origin" "*")
    (getA "cors-allow-methods" "GET, PUT, POST, DELETE, PATCH, OPTIONS")
    (getA "cors-allow-headers" "Content-Type, Authorization")
    (getA "cors-allow-credentials" "true")

/-- buildBackendFilters: URL rewrite (with the regex note when use-regex is
present), then CORS, then the custom-headers placeholder, in source order.
RequestRedirect is never produced here. -/
def buildBackendFilters (annots : GoMap) : List HTTPFilter :=
  let target := mapGet annots "rewrite-target"
  let rewriteF :=
    if mapHas annots "rewrite-target" && target != "" then
      [HTTPFilter.urlRewriteReplaceFullPath target (mapHas annots "use-regex")]
    else []
  let corsF :=
    if mapGet annots "enable-cors" = "true" then [buildCORSFilter annots] else []
  let customF :=
    if mapHas annots "custom-headers" then [HTTPFilter.customHeadersPlaceholder] else []
  rewriteF ++ corsF ++ customF

/-- buildBackendRefs: port defaults to 80 when zero; the canary branch adds
the weight and the commented stable-backend placeholder. -/
def buildBackendRefs (p : PathInfo) (isCanary : Bool) (canaryWeight : String) :
    List BackendRef :=
  let port := if p.servicePort = 0 then 80 else p.servicePort
  if isCanary && canaryWeight != "" then
    [{ name := p.serviceName, port := port, weight := some canaryWeight, stableNote := true }]
  else
    [{ name := p.serviceName, port := port, weight := none, stableNote := false }]

/-- buildTimeouts: only proxy-read-timeout is read; empty means no timeouts
block, otherwise a block whose single field is backendRequest.  The
proxy-connect-timeout annotation is never consulted. -/
def buildTimeouts (annots : GoMap) : Option Timeouts :=
  let readTimeout := mapGet annots "proxy-read-timeout"
  if readTimeout = "" then none
  else some { backendRequest := readTimeout }

/-- The host grouping shared by buildRedirectOnlyRules and
buildBackendOnlyRules: hostOrder records each host at first appearance, and
the rules are emitted host by host in that order, paths in append order.
The net effect is this reordering of the path list. -/
def groupedPaths (paths : List PathInfo) : List PathInfo :=
  let hostOrder := paths.foldl
    (fun acc p => if acc.contains p.host then acc else acc ++ [p.host]) []
  hostOrder.foldr (fun h acc => paths.filter (fun p => p.host == h) ++ acc) []

/-- buildRedirectOnlyRules: one rule per path, each with a single
RequestRedirect filter (scheme https) and no backendRefs and no timeouts. -/
def buildRedirectOnlyRules (ing : IngressInfo) (statusCode : Nat) :
    List HTTPRouteRule :=
  let annots := ing.nginxAnnotations
  (groupedPaths ing.paths).map (fun p =>
    { ruleMatches := [{ path := buildPathMatch p annots, header := buildHeaderMatches annots }],
      filters := [.requestRedirect "https" statusCode],
      backendRefs := [],
      timeouts := none })

/-- buildBackendOnlyRules: one rule per path with the backend filters,
backendRefs and timeouts; RequestRedirect never appears. -/
def buildBackendOnlyRules (ing : IngressInfo) (annots : GoMap) :
    List HTTPRouteRule :=
  let isCanary := mapGet annots "canary" = "true"
  let canaryWeight := mapGet annots "canary-weight"
  (groupedPaths ing.paths).map (fun p =>
    { ruleMatches := [{ path := buildPathMatch p annots, header := buildHeaderMatches annots }],
      filters := buildBackendFilters annots,
      backendRefs := buildBackendRefs p isCanary canaryWeight,
      timeouts := buildTimeouts annots })

/-- generateSingleHTTPRoute: one HTTPRoute doc with backend-only rules;
sectionName appears in the parentRef only when non-empty. -/
def generateSingleHTTPRoute (ing : IngressInfo)
    (gatewayName gatewayNamespace sectionName : String) : HTTPRouteDoc :=
  { name := ing.name, ns := ing.ns,
    parentGateway := gatewayName, parentNamespace := gatewayNamespace,
    sectionName := if sectionName = "" then none else some sectionName,
    hostnames := ing.hosts,
    rules := buildBackendOnlyRules ing ing.nginxAnnotations }

/-- hasSSLRedirect: the trigger condition of generateHTTPRoute. -/
def hasSSLRedirect (annots : GoMap) : Bool :=
  mapGet annots "force-ssl-redirect" == "true" || mapGet annots "ssl-redirect" == "true"

/-- generateSplitHTTPRoutes: the redirect route (name suffixed "-redirect",
bound to sectionName http, redirect-only rules) followed by the backend route
bound to the HTTPS sectionName looked up from the primary hostname (empty
lookup means no sectionName). -/
def generateSplitHTTPRoutes (ing : IngressInfo)
    (gatewayName gatewayNamespace : String) (hostnameToSection : GoMap) :
    List HTTPRouteDoc :=
  let annots := ing.nginxAnnotations
  let httpsSectionName :=
    match ing.hosts with
    | [] => ""
    | h :: _ => mapGet hostnameToSection h
  let statusCode : Nat :=
    if mapGet annots "ssl-redirect" = "true" && mapGet annots "force-ssl-redirect" != "true"
    then 302 else 301
  let redirectRoute : HTTPRouteDoc :=
    { name := ing.name ++ "-redirect", ns := ing.ns,
      parentGateway := gatewayName, parentNamespace := gatewayNamespace,
      sectionName := some "http",
      hostnames := ing.hosts,
      rules := buildRedirectOnlyRules ing statusCode }
  [redirectRoute, generateSingleHTTPRoute ing gatewayName gatewayNamespace httpsSectionName]

/-- generateHTTPRoute: the split pair when ssl-redirect/force-ssl-redirect is
"true", else a single backend route with no sectionName. -/
def generateHTTPRoute (ing : IngressInfo)
    (gatewayName gatewayNamespace : String) (hostnameToSection : GoMap) :
    List HTTPRouteDoc :=
  if hasSSLRedirect ing.nginxAnnotations then
    generateSplitHTTPRoutes ing gatewayName gatewayNamespace hostnameToSection
  else
    [generateSingleHTTPRoute ing gatewayName gatewayNamespace ""]

/-! ## Traefik synthesizer: pkg/migrator/traefik/migrator.go

generateUpdatedIngress is embedded literally at the string level, because the
idempotency claim is about byte content.  Go's `%q` verb is modelled as plain
double-quoting, exact for values without characters needing escapes (all
values used in this development).  Two `range` loops in this function iterate
Go maps (the annotation map and the host grouping map); per the GoMap
convention, the association-list order stands for whichever iteration order
the runtime picks. -/

/-- copyAnnotations: a fresh map with the same contents. -/
def copyAnnotations (src : GoMap) : GoMap := src

/-- The toRemove list of generateUpdatedIngress. -/
def toRemove : List String := [
  "nginx.ingress.kubernetes.io/ssl-redirect",
  "nginx.ingress.kubernetes.io/force-ssl-redirect",
  "nginx.ingress.kubernetes.io/enable-cors",
  "nginx.ingress.kubernetes.io/cors-allow-origin",
  "nginx.ingress.kubernetes.io/cors-allow-methods",
  "nginx.ingress.kubernetes.io/cors-allow-headers",
  "nginx.ingress.kubernetes.io/cors-expose-headers",
  "nginx.ingress.kubernetes.io/cors-allow-credentials",
  "nginx.ingress.kubernetes.io/cors-max-age",
  "nginx.ingress.kubernetes.io/auth-url",
  "nginx.ingress.kubernetes.io/auth-response-headers",
  "nginx.ingress.kubernetes.io/auth-method",
  "nginx.ingress.kubernetes.io/limit-rps",
  "nginx.ingress.kubernetes.io/limit-rpm",
  "nginx.ingress.kubernetes.io/limit-connections",
  "nginx.ingress.kubernetes.io/whitelist-source-range",
  "nginx.ingress.kubernetes.io/denylist-source-range",
  "nginx.ingress.kubernetes.io/rewrite-target",
  "nginx.ingress.kubernetes.io/use-regex"]

/-- Go %q on a string value without escape-needing characters. -/
def quoteGo (v : String) : String := "\"" ++ v ++ "\""

/-- buildRulesSection: paths grouped by host into a Go map, then one rules
entry per host.  The Go loop ranges over that map; the embedding emits hosts
in first-appearance order, one of the possible iteration orders. -/
def buildRulesSection (ing : IngressInfo) : String :=
  let hostOrder := ing.paths.foldl
    (fun acc p => if acc.contains p.host then acc else acc ++ [p.host]) []
  String.join (hostOrder.map (fun host =>
    let hostLine :=
      if host != "" then "  - host: " ++ host ++ "\n" else "  - \x7b\x7d\n"
    let pathLines := String.join ((ing.paths.filter (fun p => p.host == host)).map (fun p =>
      let pathType := if p.pathType = "" then "Prefix" else p.pathType
      let pathStr := if p.path = "" then "/" else p.path
      "      - path: " ++ pathStr ++ "\n" ++
      "        pathType: " ++ pathType ++ "\n" ++
      "        backend:\n" ++
      "          service:\n" ++
      "            name: " ++ p.serviceName ++ "\n" ++
      "            port:\n" ++
      "              number: " ++ toString p.servicePort ++ "\n"))
    hostLine ++ "    http:\n      paths:\n" ++ pathLines))

/-- hostListForTLS: one indented line per host, newline-joined. -/
def hostListForTLS (ing : IngressInfo) : String :=
  String.intercalate "\n" (ing.hosts.map (fun h => "    - " ++ h))

/-- generateUpdatedIngress: the updated Ingress manifest with translated
annotations removed, the aggregate Traefik middleware annotation added, and
the annotation block printed by ranging over the (unordered) Go map. -/
def generateUpdatedIngress (ing : IngressInfo) (middlewareNames : List String) :
    String :=
  let annots := toRemove.foldl mapDelete (copyAnnotations ing.annotations)
  let annots :=
    if middlewareNames.length > 0 then
      mapSet annots "traefik.ingress.kubernetes.io/router.middlewares"
        (String.intercalate "," middlewareNames)
    else annots
  let annotationLines := annots.map (fun kv => "    " ++ kv.1 ++ ": " ++ quoteGo kv.2)
  let tlsSection := String.join (ing.tlsSecrets.map (fun secret =>
    "  - hosts:\n" ++ hostListForTLS ing ++ "\n    secretName: " ++ secret ++ "\n"))
  let rulesSection := buildRulesSection ing
  let ingressClass := if ing.ingressClass = "" then "nginx" else ing.ingressClass
  let yaml :=
    "apiVersion: networking.k8s.io/v1\n" ++
    "kind: Ingress\n" ++
    "metadata:\n" ++
    "  name: " ++ ing.name ++ "\n" ++
    "  namespace: " ++ ing.ns ++ "\n" ++
    "  annotations:\n" ++
    String.intercalate "\n" annotationLines ++ "\n" ++
    "spec:\n" ++
    "  ingressClassName: " ++ ingressClass ++ "\n" ++
    "  rules:\n" ++
    rulesSection
  let yaml := if tlsSection != "" then yaml ++ "  tls:\n" ++ tlsSection else yaml
  yaml ++ "\n"

/-! ## Validation phase: pkg/server/validate.go, lines 162-172 -/

/-- The migration-phase switch of runRichValidation.  Everything else in that
function is cluster I/O that merely produces the two facts; the phase is
computed from `targetRunning` and `nginxPresent` alone. -/
def derivePhase (targetRunning nginxPresent : Bool) : String :=
  if targetRunning && !nginxPresent then "post-migration"
  else if targetRunning && nginxPresent then "migrating"
  else "pre-migration"

/-! ## Helper lemmas -/

/-- The annotation key survives every branch of the target/table switch. -/
theorem mapAnnotationFor_originalKey (key value target : String) :
    (mapAnnotationFor key value target).originalKey = key := by
  unfold mapAnnotationFor mapWithTable
  repeat' split
  all_goals rfl

/-- The overall status computed by analyzeIngress, in closed form. -/
theorem analyzeIngress_overallStatus (target : String) (ing : IngressInfo) :
    (analyzeIngress target ing).overallStatus =
      (if (analyzeIngress target ing).mappings.any
            (fun m => m.status == MappingStatus.unsupported) then "breaking"
       else if (analyzeIngress target ing).mappings.any
            (fun m => m.status == MappingStatus.partialStatus) then "workaround"
       else "ready") := rfl

/-- The overall status of a route report is always one of the three values. -/
theorem analyzeIngress_overallStatus_cases (target : String) (ing : IngressInfo) :
    (analyzeIngress target ing).overallStatus = "ready"
    ∨ (analyzeIngress target ing).overallStatus = "workaround"
    ∨ (analyzeIngress target ing).overallStatus = "breaking" := by
  rw [analyzeIngress_overallStatus]
  split
  · right; right; rfl
  · split
    · right; left; rfl
    · left; rfl

/-- bumpSummary always increments total by one. -/
theorem bumpSummary_total (s : Summary) (status : String) :
    (bumpSummary s status).total = s.total + 1 := by
  unfold bumpSummary
  repeat' split
  all_goals rfl

/-- For the three real status values, bumpSummary increments the three
category counters by exactly one in total. -/
theorem bumpSummary_categories (s : Summary) (status : String)
    (h : status = "ready" ∨ status = "workaround" ∨ status = "breaking") :
    (bumpSummary s status).fullyCompatible + (bumpSummary s status).needsWorkaround
      + (bumpSummary s status).hasUnsupported
    = s.fullyCompatible + s.needsWorkaround + s.hasUnsupported + 1 := by
  rcases h with h | h | h <;> subst h <;> simp [bumpSummary] <;> omega

/-- The fold of analyzeStep preserves the two summary invariants. -/
theorem analyze_fold_invariant (target : String) (ings : List IngressInfo)
    (rep : AnalysisReport)
    (h1 : rep.summary.total = rep.ingressReports.length)
    (h2 : rep.summary.total = rep.summary.fullyCompatible
        + rep.summary.needsWorkaround + rep.summary.hasUnsupported) :
    (ings.foldl (analyzeStep target) rep).summary.total
      = (ings.foldl (analyzeStep target) rep).ingressReports.length
    ∧ (ings.foldl (analyzeStep target) rep).summary.total
      = (ings.foldl (analyzeStep target) rep).summary.fullyCompatible
        + (ings.foldl (analyzeStep target) rep).summary.needsWorkaround
        + (ings.foldl (analyzeStep target) rep).summary.hasUnsupported := by
  induction ings generalizing rep with
  | nil => exact ⟨h1, h2⟩
  | cons ing rest ih =>
      rw [List.foldl_cons]
      apply ih
      · simp only [analyzeStep]
        rw [bumpSummary_total, List.length_append, h1]
        rfl
      · simp only [analyzeStep]
        rw [bumpSummary_total,
          bumpSummary_categories rep.summary _ (analyzeIngress_overallStatus_cases target ing),
          h2]

/-- The fold of analyzeStep appends exactly one report per ingress. -/
theorem analyze_fold_length (target : String) (ings : List IngressInfo)
    (rep : AnalysisReport) :
    (ings.foldl (analyzeStep target) rep).ingressReports.length
      = rep.ingressReports.length + ings.length := by
  induction ings generalizing rep with
  | nil => rfl
  | cons ing rest ih =>
      rw [List.foldl_cons, ih]
      simp only [analyzeStep, List.length_append, List.length_cons, List.length_nil]
      omega

/-- buildBackendFilters never produces a RequestRedirect filter. -/
theorem buildBackendFilters_no_redirect (annots : GoMap) :
    ∀ f ∈ buildBackendFilters annots, f.isRequestRedirect = false := by
  intro f hf
  simp only [buildBackendFilters, List.mem_append] at hf
  rcases hf with (hf | hf) | hf
  · by_cases h1 : (mapHas annots "rewrite-target"
        && mapGet annots "rewrite-target" != "") = true
    · rw [if_pos h1] at hf
      simp only [List.mem_singleton] at hf
      subst hf
      rfl
    · rw [if_neg h1] at hf
      cases hf
  · by_cases h2 : mapGet annots "enable-cors" = "true"
    · rw [if_pos h2] at hf
      simp only [List.mem_singleton] at hf
      subst hf
      rfl
    · rw [if_neg h2] at hf
      cases hf
  · by_cases h3 : mapHas annots "custom-headers" = true
    · rw [if_pos h3] at hf
      simp only [List.mem_singleton] at hf
      subst hf
      rfl
    · rw [if_neg h3] at hf
      cases hf

/-- buildBackendRefs always returns exactly one backend reference. -/
theorem buildBackendRefs_ne_nil (p : PathInfo) (isCanary : Bool) (w : String) :
    buildBackendRefs p isCanary w ≠ [] := by
  unfold buildBackendRefs
  split <;> split <;> simp

/-- The empty-path default "/" has the same regex-character content as the
original path (both contain none when the path is empty). -/
theorem pathHasRegexChars_default (path : String) :
    pathHasRegexChars (if path = "" then "/" else path) = pathHasRegexChars path := by
  split
  · rename_i h
    rw [h]
    decide
  · rfl

/-! ## Claim theorems -/

/-- C2: for every route, overallStatus is "breaking" exactly when some mapping
is unsupported; otherwise "workaround" exactly when some mapping is partial;
otherwise "ready".  A single unsupported mapping forces "breaking" regardless
of the other mappings. -/
theorem C2_overall_status_precedence (target : String) (ing : IngressInfo) :
    ((analyzeIngress target ing).overallStatus = "breaking"
      ↔ ∃ m ∈ (analyzeIngress target ing).mappings, m.status = MappingStatus.unsupported)
    ∧ ((analyzeIngress target ing).overallStatus = "workaround"
      ↔ ((∀ m ∈ (analyzeIngress target ing).mappings, m.status ≠ MappingStatus.unsupported)
          ∧ ∃ m ∈ (analyzeIngress target ing).mappings, m.status = MappingStatus.partialStatus))
    ∧ ((analyzeIngress target ing).overallStatus = "ready"
      ↔ ∀ m ∈ (analyzeIngress target ing).mappings,
          m.status ≠ MappingStatus.unsupported ∧ m.status ≠ MappingStatus.partialStatus) := by
  rw [analyzeIngress_overallStatus]
  by_cases hU : (analyzeIngress target ing).mappings.any
      (fun m => m.status == MappingStatus.unsupported) = true
  · rw [if_pos hU]
    simp only [List.any_eq_true, beq_iff_eq] at hU
    refine ⟨by simpa using hU, ?_, ?_⟩
    · constructor
      · intro hcontra
        exact absurd hcontra (by decide)
      · rintro ⟨hno, -⟩
        obtain ⟨m, hm, hs⟩ := hU
        exact absurd hs (hno m hm)
    · constructor
      · intro hcontra
        exact absurd hcontra (by decide)
      · intro hno
        obtain ⟨m, hm, hs⟩ := hU
        exact absurd hs (hno m hm).1
  · rw [if_neg hU]
    simp only [List.any_eq_true, beq_iff_eq, not_exists, not_and] at hU
    push_neg at hU
    by_cases hP : (analyzeIngress target ing).mappings.any
        (fun m => m.status == MappingStatus.partialStatus) = true
    · rw [if_pos hP]
      simp only [List.any_eq_true, beq_iff_eq] at hP
      refine ⟨?_, ?_, ?_⟩
      · constructor
        · intro hcontra
          exact absurd hcontra (by decide)
        · rintro ⟨m, hm, hs⟩
          exact absurd hs (hU m hm)
      · exact ⟨fun _ => ⟨hU, hP⟩, fun _ => rfl⟩
      · constructor
        · intro hcontra
          exact absurd hcontra (by decide)
        · intro hno
          obtain ⟨m, hm, hs⟩ := hP
          exact absurd hs (hno m hm).2
    · rw [if_neg hP]
      simp only [List.any_eq_true, beq_iff_eq, not_exists, not_and] at hP
      push_neg at hP
      refine ⟨?_, ?_, ?_⟩
      · constructor
        · intro hcontra
          exact absurd hcontra (by decide)
        · rintro ⟨m, hm, hs⟩
          exact absurd hs (hU m hm)
      · constructor
        · intro hcontra
          exact absurd hcontra (by decide)
        · rintro ⟨-, m, hm, hs⟩
          exact absurd hs (hP m hm)
      · exact ⟨fun _ m hm => ⟨hU m hm, hP m hm⟩, fun _ => rfl⟩

/-- C8: the migration phase is a pure function of the two controller facts,
with the full truth table: target not ready gives pre-migration for either
state of the legacy controller; both present gives the parallel "migrating"
phase; target ready without the legacy controller gives post-migration. -/
theorem C8_phase_truth_table :
    derivePhase false false = "pre-migration"
    ∧ derivePhase false true = "pre-migration"
    ∧ derivePhase true true = "migrating"
    ∧ derivePhase true false = "post-migration" := by
  exact ⟨rfl, rfl, rfl, rfl⟩

/-- C10: in every analysis report, Summary.Total equals the number of
per-route reports and equals the sum of the three category counters. -/
theorem C10_summary_partition (target : String) (scan : ScanResult) :
    (Analyze target scan).summary.total = (Analyze target scan).ingressReports.length
    ∧ (Analyze target scan).summary.total
      = (Analyze target scan).summary.fullyCompatible
        + (Analyze target scan).summary.needsWorkaround
        + (Analyze target scan).summary.hasUnsupported := by
  exact analyze_fold_invariant target scan.ingresses _ rfl rfl

/-- The annotation value survives every branch of the target/table switch. -/
theorem mapAnnotationFor_originalValue (key value target : String) :
    (mapAnnotationFor key value target).originalValue = value := by
  unfold mapAnnotationFor mapWithTable
  repeat' split
  all_goals rfl

/-- A rate-limited shop route with HTTPS redirect, host shop.example.com,
path /pay (the walk-through scenario of the specification). -/
def c1Ing : IngressInfo :=
  { ns := "shop", name := "checkout", ingressClass := "nginx",
    hosts := ["shop.example.com"],
    paths := [{ host := "shop.example.com", path := "/pay", pathType := "Prefix",
                serviceName := "checkout-svc", servicePort := 8080 }],
    tlsEnabled := true, tlsSecrets := ["shop-tls"],
    annotations := [("nginx.ingress.kubernetes.io/ssl-redirect", "true")],
    nginxAnnotations := [("ssl-redirect", "true"), ("limit-rps", "50")],
    services := [], complexity := "simple" }

/-- The listener-section table assigning shop.example.com its HTTPS section. -/
def c1Tbl : GoMap := [("shop.example.com", "https-0")]

/-- C1: with ssl-redirect or force-ssl-redirect set to "true", the gateway-api
synthesizer emits exactly two route objects: a name-redirect route bound to
sectionName http whose rules carry only a RequestRedirect filter and no
backendRefs, and a backend route whose rules carry backendRefs and no
RequestRedirect filter, bound to the HTTPS section matched from the primary
hostname whenever the section table yields one. -/
theorem C1_redirect_backend_split (ing : IngressInfo) (gw gwNs : String)
    (tbl : GoMap) (hssl : hasSSLRedirect ing.nginxAnnotations = true) :
    ∃ rd bd,
      generateHTTPRoute ing gw gwNs tbl = [rd, bd]
      ∧ rd.name = ing.name ++ "-redirect"
      ∧ rd.sectionName = some "http"
      ∧ (∀ r ∈ rd.rules,
          r.backendRefs = [] ∧ ∃ sc, r.filters = [HTTPFilter.requestRedirect "https" sc])
      ∧ bd.name = ing.name
      ∧ (∀ r ∈ bd.rules,
          (∀ f ∈ r.filters, f.isRequestRedirect = false) ∧ r.backendRefs ≠ [])
      ∧ (∀ h0 rest, ing.hosts = h0 :: rest → mapGet tbl h0 ≠ "" →
          bd.sectionName = some (mapGet tbl h0)) := by
  unfold generateHTTPRoute
  rw [if_pos hssl]
  unfold generateSplitHTTPRoutes
  refine ⟨_, _, rfl, rfl, rfl, ?_, rfl, ?_, ?_⟩
  · intro r hr
    simp only [buildRedirectOnlyRules, List.mem_map] at hr
    obtain ⟨p, hp, hre⟩ := hr
    subst hre
    exact ⟨rfl, _, rfl⟩
  · intro r hr
    simp only [generateSingleHTTPRoute, buildBackendOnlyRules, List.mem_map] at hr
    obtain ⟨p, hp, hre⟩ := hr
    subst hre
    exact ⟨buildBackendFilters_no_redirect ing.nginxAnnotations,
           buildBackendRefs_ne_nil p _ _⟩
  · intro h0 rest hh hne
    simp only [generateSingleHTTPRoute]
    rw [hh]
    simp only []
    rw [if_neg hne]

/-- C1 witness: the theorem applied to the shop/checkout route. -/
theorem C1_redirect_backend_split_witness :
    hasSSLRedirect c1Ing.nginxAnnotations = true
    ∧ ∃ rd bd,
        generateHTTPRoute c1Ing "ing-switch-gateway" "default" c1Tbl = [rd, bd]
        ∧ rd.name = c1Ing.name ++ "-redirect"
        ∧ rd.sectionName = some "http"
        ∧ (∀ r ∈ rd.rules,
            r.backendRefs = [] ∧ ∃ sc, r.filters = [HTTPFilter.requestRedirect "https" sc])
        ∧ bd.name = c1Ing.name
        ∧ (∀ r ∈ bd.rules,
            (∀ f ∈ r.filters, f.isRequestRedirect = false) ∧ r.backendRefs ≠ [])
        ∧ (∀ h0 rest, c1Ing.hosts = h0 :: rest → mapGet c1Tbl h0 ≠ "" →
            bd.sectionName = some (mapGet c1Tbl h0)) :=
  ⟨by decide,
   C1_redirect_backend_split c1Ing "ing-switch-gateway" "default" c1Tbl (by decide)⟩

/-- C2 witness: the precedence rule instantiated on the shop/checkout route
classified for gateway-api. -/
theorem C2_overall_status_precedence_witness :
    ((analyzeIngress "gateway-api" c1Ing).overallStatus = "breaking"
      ↔ ∃ m ∈ (analyzeIngress "gateway-api" c1Ing).mappings, m.status = MappingStatus.unsupported)
    ∧ ((analyzeIngress "gateway-api" c1Ing).overallStatus = "workaround"
      ↔ ((∀ m ∈ (analyzeIngress "gateway-api" c1Ing).mappings, m.status ≠ MappingStatus.unsupported)
          ∧ ∃ m ∈ (analyzeIngress "gateway-api" c1Ing).mappings, m.status = MappingStatus.partialStatus))
    ∧ ((analyzeIngress "gateway-api" c1Ing).overallStatus = "ready"
      ↔ ∀ m ∈ (analyzeIngress "gateway-api" c1Ing).mappings,
          m.status ≠ MappingStatus.unsupported ∧ m.status ≠ MappingStatus.partialStatus) :=
  C2_overall_status_precedence "gateway-api" c1Ing

/-- C3: the match type is RegularExpression exactly when the route carries the
use-regex key or the path contains a regex character; otherwise it is Exact
for pathType Exact and PathPrefix for everything else. -/
theorem C3_regex_match_type (p : PathInfo) (annots : GoMap) :
    ((buildPathMatch p annots).matchType = "RegularExpression"
      ↔ (mapHas annots "use-regex" = true ∨ pathHasRegexChars p.path = true))
    ∧ ((mapHas annots "use-regex" = false ∧ pathHasRegexChars p.path = false) →
        (buildPathMatch p annots).matchType
          = if p.pathType = "Exact" then "Exact" else "PathPrefix") := by
  simp only [buildPathMatch, pathHasRegexChars_default]
  by_cases hc : (mapHas annots "use-regex" || pathHasRegexChars p.path) = true
  · rw [if_pos hc]
    simp only [Bool.or_eq_true] at hc
    constructor
    · exact ⟨fun _ => hc, fun _ => rfl⟩
    · rintro ⟨hflag, hchars⟩
      rcases hc with hc | hc
      · rw [hflag] at hc
        cases hc
      · rw [hchars] at hc
        cases hc
  · rw [if_neg hc]
    simp only [Bool.or_eq_true, not_or] at hc
    obtain ⟨hflag, hchars⟩ := hc
    constructor
    · constructor
      · intro hcontra
        by_cases hpt : p.pathType = "Exact"
        · rw [if_pos hpt] at hcontra
          simp at hcontra
        · rw [if_neg hpt] at hcontra
          simp at hcontra
      · rintro (hc | hc)
        · exact absurd hc hflag
        · exact absurd hc hchars
    · intro _
      rfl

/-- C3 witness: the theorem applied to an exact-typed plain path with no
annotations. -/
theorem C3_regex_match_type_witness :
    (((buildPathMatch
          { host := "", path := "/api", pathType := "Exact",
            serviceName := "api-svc", servicePort := 80 } []).matchType
        = "RegularExpression")
      ↔ (mapHas [] "use-regex" = true ∨ pathHasRegexChars "/api" = true))
    ∧ ((mapHas [] "use-regex" = false ∧ pathHasRegexChars "/api" = false) →
        (buildPathMatch
          { host := "", path := "/api", pathType := "Exact",
            serviceName := "api-svc", servicePort := 80 } []).matchType
          = if ("Exact" : String) = "Exact" then "Exact" else "PathPrefix") :=
  C3_regex_match_type
    { host := "", path := "/api", pathType := "Exact",
      serviceName := "api-svc", servicePort := 80 } []

/-- C4: the timeouts block built from a route carrying both timeout
annotations sets exactly the backendRequest field with the proxy-read-timeout
value, and the result never depends on the proxy-connect-timeout value (any
other map agreeing on proxy-read-timeout yields the same block). -/
theorem C4_timeouts_only_backendRequest (annots other : GoMap) (rt ct : String)
    (h1 : mapFind annots "proxy-read-timeout" = some rt)
    (hrt : rt ≠ "")
    (_hct : mapFind annots "proxy-connect-timeout" = some ct)
    (h3 : mapFind other "proxy-read-timeout" = some rt) :
    buildTimeouts annots = some { backendRequest := rt }
    ∧ buildTimeouts other = buildTimeouts annots := by
  have g1 : mapGet annots "proxy-read-timeout" = rt := by
    unfold mapGet
    rw [h1]
    rfl
  have g3 : mapGet other "proxy-read-timeout" = rt := by
    unfold mapGet
    rw [h3]
    rfl
  constructor
  · simp only [buildTimeouts, g1]
    rw [if_neg hrt]
  · simp only [buildTimeouts, g1, g3]

/-- C4 witness: the theorem applied to a route annotated with read timeout
300 and connect timeout 5, against a second map with a different connect
timeout. -/
theorem C4_timeouts_only_backendRequest_witness :
    mapFind [("proxy-read-timeout", "300"), ("proxy-connect-timeout", "5")]
        "proxy-read-timeout" = some "300"
    ∧ ("300" : String) ≠ ""
    ∧ mapFind [("proxy-read-timeout", "300"), ("proxy-connect-timeout", "5")]
        "proxy-connect-timeout" = some "5"
    ∧ mapFind [("proxy-connect-timeout", "999"), ("proxy-read-timeout", "300")]
        "proxy-read-timeout" = some "300"
    ∧ buildTimeouts [("proxy-read-timeout", "300"), ("proxy-connect-timeout", "5")]
        = some { backendRequest := "300" }
    ∧ buildTimeouts [("proxy-connect-timeout", "999"), ("proxy-read-timeout", "300")]
        = buildTimeouts [("proxy-read-timeout", "300"), ("proxy-connect-timeout", "5")] :=
  ⟨by decide, by decide, by decide, by decide,
   C4_timeouts_only_backendRequest
     [("proxy-read-timeout", "300"), ("proxy-connect-timeout", "5")]
     [("proxy-connect-timeout", "999"), ("proxy-read-timeout", "300")]
     "300" "5" (by decide) (by decide) (by decide) (by decide)⟩

/-- An ingress with two plain (untranslated) annotations, listed in one
iteration order of its annotation map. -/
def c5IngOneOrder : IngressInfo :=
  { ns := "default", name := "web", ingressClass := "",
    hosts := [],
    paths := [{ host := "web.example.com", path := "/", pathType := "Prefix",
                serviceName := "web-svc", servicePort := 80 }],
    tlsEnabled := false, tlsSecrets := [],
    annotations := [("example.com/team", "payments"), ("example.com/owner", "alice")],
    nginxAnnotations := [], services := [], complexity := "simple" }

/-- The same ingress with its annotation map in the other iteration order. -/
def c5IngOtherOrder : IngressInfo :=
  { c5IngOneOrder with
    annotations := [("example.com/owner", "alice"), ("example.com/team", "payments")] }

/-- C5: the Traefik generateUpdatedIngress output is not a function of the
annotation map — two iteration orders of the very same map (the two lists are
permutations of each other) yield different bytes, so two invocations of
Migrate need not produce byte-identical Content for the 03-ingresses
artifact. -/
theorem C5_traefik_content_not_map_function :
    List.Perm c5IngOneOrder.annotations c5IngOtherOrder.annotations
    ∧ generateUpdatedIngress c5IngOneOrder [] ≠ generateUpdatedIngress c5IngOtherOrder [] := by
  constructor
  · decide
  · decide

/-- A one-route scan used for the unknown-target behavior. -/
def c6Scan : ScanResult :=
  { clusterName := "",
    controller := { detected := false, ctype := "", version := "", ns := "", podName := "" },
    ingresses := [{ ns := "demo", name := "web", ingressClass := "nginx",
                    hosts := ["web.example.com"],
                    paths := [{ host := "web.example.com", path := "/", pathType := "Prefix",
                                serviceName := "web-svc", servicePort := 80 }],
                    tlsEnabled := false, tlsSecrets := [],
                    annotations := [],
                    nginxAnnotations := [("ssl-redirect", "true")],
                    services := [], complexity := "simple" }],
    namespaces := [] }

/-- C6 counterexample: called with the unknown target "nginx", Analyze is not
rejected before per-route work — it produces a per-route report containing a
per-annotation result (status unsupported, note "Unknown target"), refuting
the claimed synchronous rejection at the entry point. -/
theorem C6_counterexample :
    (Analyze "nginx" c6Scan).ingressReports.map (fun ir => ir.mappings)
      = [[{ originalKey := "ssl-redirect", originalValue := "true",
            status := MappingStatus.unsupported, targetResource := "",
            generatedYAML := "", note := "Unknown target" }]] := by
  decide

/-- C6 amended: an unknown target dialect is not rejected; mapAnnotationFor
classifies every annotation as unsupported with the note "Unknown target",
and Analyze still performs its per-route work, emitting one report per
route. -/
theorem C6_unknown_target_fallback (key value target : String) (scan : ScanResult)
    (h1 : target ≠ "traefik") (h2 : target ≠ "gateway-api") :
    mapAnnotationFor key value target
      = { originalKey := key, originalValue := value,
          status := MappingStatus.unsupported, targetResource := "",
          generatedYAML := "", note := "Unknown target" }
    ∧ (Analyze target scan).ingressReports.length = scan.ingresses.length := by
  constructor
  · unfold mapAnnotationFor
    rw [if_neg h1, if_neg h2]
  · have h := analyze_fold_length target scan.ingresses
      { target := target, ingressReports := [], summary := ⟨0, 0, 0, 0⟩ }
    simpa using h

/-- C6 witness: the amended theorem applied at target "nginx". -/
theorem C6_unknown_target_fallback_witness :
    ("nginx" : String) ≠ "traefik"
    ∧ ("nginx" : String) ≠ "gateway-api"
    ∧ (mapAnnotationFor "ssl-redirect" "true" "nginx"
        = { originalKey := "ssl-redirect", originalValue := "true",
            status := MappingStatus.unsupported, targetResource := "",
            generatedYAML := "", note := "Unknown target" }
      ∧ (Analyze "nginx" c6Scan).ingressReports.length = c6Scan.ingresses.length) :=
  ⟨by decide, by decide,
   C6_unknown_target_fallback "ssl-redirect" "true" "nginx" c6Scan (by decide) (by decide)⟩

/-- A route carrying a supported annotation listed before an unsupported one
(one iteration order of its annotation map). -/
def c7Ing : IngressInfo :=
  { ns := "demo", name := "api", ingressClass := "nginx",
    hosts := ["api.example.com"],
    paths := [{ host := "api.example.com", path := "/", pathType := "Prefix",
                serviceName := "api-svc", servicePort := 80 }],
    tlsEnabled := false, tlsSecrets := [],
    annotations := [],
    nginxAnnotations := [("ssl-redirect", "true"), ("configuration-snippet", "foo")],
    services := [], complexity := "simple" }

/-- The same route with the other iteration order of the same annotation map. -/
def c7IngSwapped : IngressInfo :=
  { c7Ing with
    nginxAnnotations := [("configuration-snippet", "foo"), ("ssl-redirect", "true")] }

/-- C7 counterexample: for the traefik target, the report for c7Ing lists the
supported mapping before the unsupported one — unsupported is not first — and
swapping the iteration order of the same annotation map reverses the mapping
order, so the ordering does depend on map iteration order. -/
theorem C7_counterexample :
    (analyzeIngress "traefik" c7Ing).mappings.map (fun m => m.status)
      = [MappingStatus.supported, MappingStatus.unsupported]
    ∧ (analyzeIngress "traefik" c7IngSwapped).mappings.map (fun m => m.status)
      = [MappingStatus.unsupported, MappingStatus.supported]
    ∧ List.Perm c7Ing.nginxAnnotations c7IngSwapped.nginxAnnotations := by
  refine ⟨by decide, by decide, by decide⟩

/-- C7 amended: the mappings list is not sorted by status; it carries exactly
one mapping per annotation, in the iteration order of the route's annotation
map (and therefore varies with that order). -/
theorem C7_mappings_follow_iteration_order (target : String) (ing : IngressInfo) :
    (analyzeIngress target ing).mappings.map (fun m => (m.originalKey, m.originalValue))
      = ing.nginxAnnotations := by
  show ((ing.nginxAnnotations.map fun kv => mapAnnotationFor kv.1 kv.2 target).map
          fun m => (m.originalKey, m.originalValue)) = _
  induction ing.nginxAnnotations with
  | nil => rfl
  | cons kv rest ih =>
      simp only [List.map_cons, mapAnnotationFor_originalKey, mapAnnotationFor_originalValue, ih]

/-- C7 amended witness: the order-preservation instantiated on c7Ing. -/
theorem C7_mappings_follow_iteration_order_witness :
    (analyzeIngress "traefik" c7Ing).mappings.map (fun m => (m.originalKey, m.originalValue))
      = c7Ing.nginxAnnotations :=
  C7_mappings_follow_iteration_order "traefik" c7Ing

/-- C9: the regex decision tests only the presence of the use-regex key; any
stored value, including "false", forces RegularExpression for every path. -/
theorem C9_use_regex_value_ignored (p : PathInfo) (annots : GoMap) (v : String)
    (h : mapFind annots "use-regex" = some v) :
    (buildPathMatch p annots).matchType = "RegularExpression" := by
  have hhas : mapHas annots "use-regex" = true := by
    unfold mapHas
    rw [h]
    rfl
  simp [buildPathMatch, hhas]

/-- C9 witness: a plain path on a route annotated use-regex: "false" is still
emitted as RegularExpression. -/
theorem C9_use_regex_value_ignored_witness :
    mapFind [("use-regex", "false")] "use-regex" = some "false"
    ∧ (buildPathMatch
        { host := "", path := "/api", pathType := "Prefix",
          serviceName := "api-svc", servicePort := 80 }
        [("use-regex", "false")]).matchType = "RegularExpression" :=
  ⟨by decide,
   C9_use_regex_value_ignored
     { host := "", path := "/api", pathType := "Prefix",
       serviceName := "api-svc", servicePort := 80 }
     [("use-regex", "false")] "false" (by decide)⟩

/-- C10 witness: the summary partition instantiated on the one-route scan. -/
theorem C10_summary_partition_witness :
    (Analyze "traefik" c6Scan).summary.total
      = (Analyze "traefik" c6Scan).ingressReports.length
    ∧ (Analyze "traefik" c6Scan).summary.total
      = (Analyze "traefik" c6Scan).summary.fullyCompatible
        + (Analyze "traefik" c6Scan).summary.needsWorkaround
        + (Analyze "traefik" c6Scan).summary.hasUnsupported :=
  C10_summary_partition "traefik" c6Scan

end IngSwitch
